import Mathlib

/-!
Shallow embedding of the lambda-ses repository core.

Server side (main.go, types.go, types_bulk.go): the Lambda handler that
dispatches an input envelope to one of three SES operations, translating
between the wire types (json-tagged Go structs) and the SES SDK types.
Client side (src/index.ts): the invocation client `LambdaSes.send`.

Go pointers are modelled as `Option`, Go slices as `List` (with
`listToGoSlice` recovering the nil-slice distinction where the handler
relies on it), Go `map[string]string` as an association list, and the
two external collaborators (the SES provider and the Lambda transport)
as explicit oracles.  Provider invocations are tracked in an explicit
call log, so that claims about calls never being issued are statable.
-/

namespace LambdaSes

/-- Errors produced by the handler are Go error values; only their message
is observable here. -/
abbrev Err := String

/-- Result metadata (middleware.Metadata) is carried through untouched; it
is modelled as an abstract token. -/
abbrev Metadata := String

/-! ## Wire types, from types.go (src/unnamed/part_005) -/

/-- Wire Content: data (json "data"), charset (json "charset"). -/
structure Content where
  data : Option String
  charset : Option String
  deriving DecidableEq

/-- Wire RawMessage: a byte slice (json "data"). -/
structure RawMessage where
  data : List Nat
  deriving DecidableEq

/-- Wire Body: html and text variants (json "html" / "text"). -/
structure Body where
  html : Option Content
  text : Option Content
  deriving DecidableEq

/-- Wire Message: body and subject (json "body" / "subject"). -/
structure Message where
  body : Option Body
  subject : Option Content
  deriving DecidableEq

/-- Wire Template (json "arn" / "data" / "name"). -/
structure Template where
  templateArn : Option String
  templateData : Option String
  templateName : Option String
  deriving DecidableEq

/-- Wire EmailContent: the flat legacy body/subject dialect plus the
raw, simple and template variants. -/
structure EmailContent where
  body : Option Body
  subject : Option Content
  raw : Option RawMessage
  simple : Option Message
  template : Option Template
  deriving DecidableEq

/-- Wire Destination (json "bcc" / "cc" / "to"). -/
structure Destination where
  bccAddresses : List String
  ccAddresses : List String
  toAddresses : List String
  deriving DecidableEq

/-- Go map[string]string; iteration order is abstracted as list order. -/
abbrev MessageTag := List (String × String)

/-- Wire ListManagementOptions. -/
structure ListManagementOptions where
  contactListName : Option String
  topicName : Option String
  deriving DecidableEq

/-- Wire SendEmailInput, from types.go. -/
structure SendEmailInput where
  content : Option EmailContent
  configurationSetName : Option String
  destination : Option Destination
  emailTags : MessageTag
  feedbackForwardingEmailAddress : Option String
  feedbackForwardingEmailAddressIdentityArn : Option String
  fromEmailAddress : Option String
  fromEmailAddressIdentityArn : Option String
  listManagementOptions : Option ListManagementOptions
  replyToAddresses : List String
  deriving DecidableEq

/-- Wire SendEmailOutput, from types.go. -/
structure SendEmailOutput where
  messageId : Option String
  resultMetadata : Metadata
  deriving DecidableEq

/-! ## Wire bulk types, from types_bulk.go -/

/-- Wire ReplacementTemplate (json "data"). -/
structure ReplacementTemplate where
  replacementTemplateData : Option String
  deriving DecidableEq

/-- Wire ReplacementEmailContent (json "replacementTemplate"). -/
structure ReplacementEmailContent where
  replacementTemplate : Option ReplacementTemplate
  deriving DecidableEq

/-- Wire BulkEmailEntry (json "destination" / "content" / "tags"). -/
structure BulkEmailEntry where
  destination : Option Destination
  replacementEmailContent : Option ReplacementEmailContent
  replacementTags : MessageTag
  deriving DecidableEq

/-- Wire BulkEmailContent; its single field carries the json tag
"temaplte" in types_bulk.go. -/
structure BulkEmailContent where
  template : Option Template
  deriving DecidableEq

/-- Wire SendBulkEmailInput, from types_bulk.go. -/
structure SendBulkEmailInput where
  bulkEmailEntries : List BulkEmailEntry
  defaultContent : Option BulkEmailContent
  configurationSetName : Option String
  defaultEmailTags : MessageTag
  feedbackForwardingEmailAddress : Option String
  feedbackForwardingEmailAddressIdentityArn : Option String
  fromEmailAddress : Option String
  fromEmailAddressIdentityArn : Option String
  replyToAddresses : List String
  deriving DecidableEq

/-- Wire BulkEmailEntryResult; the status enum is carried as its string. -/
structure BulkEmailEntryResult where
  error : Option String
  messageId : Option String
  status : String
  deriving DecidableEq

/-- Wire SendBulkEmailOutput, from types_bulk.go. -/
structure SendBulkEmailOutput where
  bulkEmailEntryResults : List BulkEmailEntryResult
  resultMetadata : Metadata
  deriving DecidableEq

/-! ## SES SDK types (sesv2/types), the provider-facing shapes -/

/-- SDK types.Content. -/
structure SdkContent where
  data : Option String
  charset : Option String
  deriving DecidableEq

/-- SDK types.Body. -/
structure SdkBody where
  html : Option SdkContent
  text : Option SdkContent
  deriving DecidableEq

/-- SDK types.Message. -/
structure SdkMessage where
  body : Option SdkBody
  subject : Option SdkContent
  deriving DecidableEq

/-- SDK types.RawMessage. -/
structure SdkRawMessage where
  data : List Nat
  deriving DecidableEq

/-- SDK types.Template. -/
structure SdkTemplate where
  templateArn : Option String
  templateData : Option String
  templateName : Option String
  deriving DecidableEq

/-- SDK types.EmailContent. -/
structure SdkEmailContent where
  simple : Option SdkMessage
  raw : Option SdkRawMessage
  template : Option SdkTemplate
  deriving DecidableEq

/-- SDK types.Destination. -/
structure SdkDestination where
  bccAddresses : List String
  ccAddresses : List String
  toAddresses : List String
  deriving DecidableEq

/-- SDK types.MessageTag. -/
structure SdkMessageTag where
  name : Option String
  value : Option String
  deriving DecidableEq

/-- SDK types.ListManagementOptions. -/
structure SdkListManagementOptions where
  contactListName : Option String
  topicName : Option String
  deriving DecidableEq

/-- SDK sesv2.SendEmailInput, the provider request for a single send. -/
structure SdkSendEmailInput where
  content : SdkEmailContent
  configurationSetName : Option String
  destination : Option SdkDestination
  emailTags : List SdkMessageTag
  feedbackForwardingEmailAddress : Option String
  feedbackForwardingEmailAddressIdentityArn : Option String
  fromEmailAddress : Option String
  fromEmailAddressIdentityArn : Option String
  listManagementOptions : Option SdkListManagementOptions
  replyToAddresses : List String
  deriving DecidableEq

/-- SDK sesv2.SendEmailOutput. -/
structure SdkSendEmailOutput where
  messageId : Option String
  resultMetadata : Metadata
  deriving DecidableEq

/-- SDK types.ReplacementTemplate. -/
structure SdkReplacementTemplate where
  replacementTemplateData : Option String
  deriving DecidableEq

/-- SDK types.ReplacementEmailContent. -/
structure SdkReplacementEmailContent where
  replacementTemplate : Option SdkReplacementTemplate
  deriving DecidableEq

/-- SDK types.BulkEmailEntry. -/
structure SdkBulkEmailEntry where
  destination : Option SdkDestination
  replacementEmailContent : Option SdkReplacementEmailContent
  replacementTags : List SdkMessageTag
  deriving DecidableEq

/-- SDK types.BulkEmailContent. -/
structure SdkBulkEmailContent where
  template : Option SdkTemplate
  deriving DecidableEq

/-- SDK sesv2.SendBulkEmailInput, the provider request for a bulk send. -/
structure SdkSendBulkEmailInput where
  bulkEmailEntries : List SdkBulkEmailEntry
  defaultContent : SdkBulkEmailContent
  configurationSetName : Option String
  defaultEmailTags : List SdkMessageTag
  feedbackForwardingEmailAddress : Option String
  feedbackForwardingEmailAddressIdentityArn : Option String
  fromEmailAddress : Option String
  fromEmailAddressIdentityArn : Option String
  replyToAddresses : List String
  deriving DecidableEq

/-- SDK per-entry bulk result. -/
structure SdkBulkEmailEntryResult where
  error : Option String
  messageId : Option String
  status : String
  deriving DecidableEq

/-- SDK sesv2.SendBulkEmailOutput. -/
structure SdkSendBulkEmailOutput where
  bulkEmailEntryResults : List SdkBulkEmailEntryResult
  resultMetadata : Metadata
  deriving DecidableEq

/-! ## The provider oracle and the call log -/

/-- The SES provider, an external collaborator: each operation either
returns its output or an error, exactly one of the two. -/
structure Provider where
  sendEmailApi : SdkSendEmailInput → Except Err SdkSendEmailOutput
  sendBulkEmailApi : SdkSendBulkEmailInput → Except Err SdkSendBulkEmailOutput

/-- One provider invocation, recorded in a call log so that claims about
requests never reaching the provider are statable. -/
inductive ProviderCall where
  | sendEmailCall (req : SdkSendEmailInput)
  | sendBulkEmailCall (req : SdkSendBulkEmailInput)
  deriving DecidableEq

/-! ## Translation functions, from main.go -/

/-- createEmailTags, main.go lines 26-37: turn the wire tag map into the
SDK tag list. -/
def createEmailTags (inputTags : MessageTag) : List SdkMessageTag :=
  inputTags.map fun kv => { name := some kv.1, value := some kv.2 }

/-- Field-for-field copy of a wire Content into an SDK Content, as done
inline at each use site in sendEmailWithContext. -/
def toSdkContent (c : Content) : SdkContent :=
  { data := c.data, charset := c.charset }

/-- Body resolution inside sendEmailWithContext (both dialect branches,
main.go lines 71-84 and 97-110): htmlContent is set when html is
present, and textContent only in the else branch, when html is absent. -/
def resolveSimpleBody (body : Body) : SdkBody :=
  match body.html with
  | some h => { html := some (toSdkContent h), text := none }
  | none =>
    match body.text with
    | some t => { html := none, text := some (toSdkContent t) }
    | none => { html := none, text := none }

/-- Content-dialect reconciliation, main.go lines 70-122: the flat
body/subject pair wins when both are present; otherwise the nested
simple message is used when its body and subject are both present. -/
def resolveSimpleMessage (content : EmailContent) : Option SdkMessage :=
  match content.body, content.subject with
  | some body, some subject =>
    some { body := some (resolveSimpleBody body), subject := some (toSdkContent subject) }
  | _, _ =>
    match content.simple with
    | some simple =>
      match simple.body, simple.subject with
      | some body, some subject =>
        some { body := some (resolveSimpleBody body), subject := some (toSdkContent subject) }
      | _, _ => none
    | none => none

/-- Validation and request assembly of sendEmailWithContext, main.go
lines 40-143, everything up to the provider call. -/
def buildSendEmailRequest (input : SendEmailInput) : Except Err SdkSendEmailInput :=
  match input.content with
  | none => .error "Content is required"
  | some content =>
    match input.destination with
    | none => .error "Destination is required"
    | some dest =>
      .ok {
        content := {
          simple := resolveSimpleMessage content
          raw := content.raw.map fun r => { data := r.data }
          template := content.template.map fun t =>
            { templateArn := t.templateArn
              templateData := t.templateData
              templateName := t.templateName }
        }
        configurationSetName := input.configurationSetName
        destination := some {
          bccAddresses := dest.bccAddresses
          ccAddresses := dest.ccAddresses
          toAddresses := dest.toAddresses
        }
        emailTags := createEmailTags input.emailTags
        feedbackForwardingEmailAddress := input.feedbackForwardingEmailAddress
        feedbackForwardingEmailAddressIdentityArn :=
          input.feedbackForwardingEmailAddressIdentityArn
        fromEmailAddress := input.fromEmailAddress
        fromEmailAddressIdentityArn := input.fromEmailAddressIdentityArn
        listManagementOptions := input.listManagementOptions.map fun l =>
          { contactListName := l.contactListName, topicName := l.topicName }
        replyToAddresses := input.replyToAddresses
      }

/-- sendEmailWithContext, main.go lines 39-146: validate, assemble, then
invoke the provider; the second component records provider calls. -/
def sendEmailWithContext (p : Provider) (input : SendEmailInput) :
    Except Err SdkSendEmailOutput × List ProviderCall :=
  match buildSendEmailRequest input with
  | .error e => (.error e, [])
  | .ok req => (p.sendEmailApi req, [.sendEmailCall req])

/-- sendEmail, main.go lines 148-150. -/
def sendEmail (p : Provider) (input : SendEmailInput) :
    Except Err SdkSendEmailOutput × List ProviderCall :=
  sendEmailWithContext p input

/-- sendEmails, main.go lines 152-168: iterate in order, appending each
success to outputs and each failure to errors, never aborting. -/
def sendEmails (p : Provider) :
    List SendEmailInput → (List SdkSendEmailOutput × List Err) × List ProviderCall
  | [] => (([], []), [])
  | input :: rest =>
    let (r, calls) := sendEmailWithContext p input
    let ((outs, errs), restCalls) := sendEmails p rest
    match r with
    | .ok o => ((o :: outs, errs), calls ++ restCalls)
    | .error e => ((outs, e :: errs), calls ++ restCalls)

/-- Per-entry translation of the bulk loop body, main.go lines 173-204. -/
def buildBulkEmailEntry (entry : BulkEmailEntry) : Except Err SdkBulkEmailEntry :=
  match entry.destination with
  | none => .error "Destination is required"
  | some dest =>
    .ok {
      destination := some {
        bccAddresses := dest.bccAddresses
        ccAddresses := dest.ccAddresses
        toAddresses := dest.toAddresses
      }
      replacementEmailContent :=
        match entry.replacementEmailContent with
        | some c =>
          match c.replacementTemplate with
          | some t =>
            match t.replacementTemplateData with
            | some d =>
              some { replacementTemplate := some { replacementTemplateData := some d } }
            | none => none
          | none => none
        | none => none
      replacementTags := createEmailTags entry.replacementTags
    }

/-- The bulk entry loop, main.go lines 171-204: the first entry without a
destination aborts the whole translation. -/
def buildBulkEmailEntries : List BulkEmailEntry → Except Err (List SdkBulkEmailEntry)
  | [] => .ok []
  | entry :: rest =>
    match buildBulkEmailEntry entry with
    | .error e => .error e
    | .ok built =>
      match buildBulkEmailEntries rest with
      | .error e => .error e
      | .ok builtRest => .ok (built :: builtRest)

/-- Request assembly of sendBulkEmail, main.go lines 171-227.  Note that
line 217 of the source assigns FromEmailAddress from
input.FeedbackForwardingEmailAddress, not from input.FromEmailAddress. -/
def buildSendBulkEmailRequest (input : SendBulkEmailInput) :
    Except Err SdkSendBulkEmailInput :=
  match buildBulkEmailEntries input.bulkEmailEntries with
  | .error e => .error e
  | .ok entries =>
    .ok {
      bulkEmailEntries := entries
      defaultContent := {
        template :=
          match input.defaultContent with
          | some dc =>
            match dc.template with
            | some t =>
              some { templateArn := t.templateArn
                     templateData := t.templateData
                     templateName := t.templateName }
            | none => none
          | none => none
      }
      configurationSetName := input.configurationSetName
      defaultEmailTags := createEmailTags input.defaultEmailTags
      feedbackForwardingEmailAddress := input.feedbackForwardingEmailAddress
      feedbackForwardingEmailAddressIdentityArn :=
        input.feedbackForwardingEmailAddressIdentityArn
      fromEmailAddress := input.feedbackForwardingEmailAddress
      fromEmailAddressIdentityArn := input.fromEmailAddressIdentityArn
      replyToAddresses := input.replyToAddresses
    }

/-- sendBulkEmail, main.go lines 170-230: translate, then invoke the
provider once; a translation error returns before any provider call. -/
def sendBulkEmail (p : Provider) (input : SendBulkEmailInput) :
    Except Err SdkSendBulkEmailOutput × List ProviderCall :=
  match buildSendBulkEmailRequest input with
  | .error e => (.error e, [])
  | .ok req => (p.sendBulkEmailApi req, [.sendBulkEmailCall req])

/-! ## The Lambda handler, main.go lines 232-309 -/

/-- HandlerInput, main.go lines 232-236 (json "email" / "emails" /
"bulkEmail"); the emails slice is a list, nil and empty coinciding. -/
structure HandlerInput where
  email : Option SendEmailInput
  emails : List SendEmailInput
  bulkEmail : Option SendBulkEmailInput
  deriving DecidableEq

/-- HandlerOutput, main.go lines 238-245.  Slice-valued fields are kept
as Option so that a nil slice (serialized as null, the Go rendering of
an omitted batch field) is distinguishable from a populated one. -/
structure HandlerOutput where
  email : Option SendEmailOutput
  emailError : Option Err
  emails : Option (List SendEmailOutput)
  emailsErrors : Option (List Err)
  bulkEmail : Option SendBulkEmailOutput
  bulkEmailError : Option Err
  deriving DecidableEq

/-- The zero HandlerOutput, every field unset. -/
def HandlerOutput.empty : HandlerOutput :=
  { email := none, emailError := none, emails := none, emailsErrors := none
    bulkEmail := none, bulkEmailError := none }

/-- A Go slice built solely by append: nil exactly when no element was
ever appended. -/
def listToGoSlice {α : Type} (l : List α) : Option (List α) :=
  if l.isEmpty then none else some l

/-- Length of an optional Go slice, a nil slice having length zero. -/
def goSliceLength {α : Type} : Option (List α) → Nat
  | none => 0
  | some l => l.length

/-- convertSendEmailOutput, main.go lines 247-256: a nil provider output
becomes a fresh empty wire output, never null. -/
def convertSendEmailOutput : Option SdkSendEmailOutput → SendEmailOutput
  | none => { messageId := none, resultMetadata := "" }
  | some o => { messageId := o.messageId, resultMetadata := o.resultMetadata }

/-- Per-entry wire conversion of the bulk result, main.go lines 289-295. -/
def convertBulkEntryResult (r : SdkBulkEmailEntryResult) : BulkEmailEntryResult :=
  { error := r.error, messageId := r.messageId, status := r.status }

/-- Outcome of one handler invocation: a normal return of the envelope
together with the Go error second return value, or a runtime crash. -/
inductive HandlerResult where
  | ok (output : HandlerOutput) (err : Option Err)
  | nilDereference
  deriving DecidableEq

/-- The single-send branch of LambdaHandler, main.go lines 259-266. -/
def singleSendPath (p : Provider) (email : SendEmailInput) :
    HandlerResult × List ProviderCall :=
  match sendEmail p email with
  | (.ok out, calls) =>
    (.ok { HandlerOutput.empty with
        email := some (convertSendEmailOutput (some out)) } none, calls)
  | (.error e, calls) =>
    (.ok { HandlerOutput.empty with
        email := some (convertSendEmailOutput none)
        emailError := some e } (some e), calls)

/-- The batch-send branch of LambdaHandler, main.go lines 267-284. -/
def batchSendPath (p : Provider) (inputs : List SendEmailInput) :
    HandlerResult × List ProviderCall :=
  let ((outs, errs), calls) := sendEmails p inputs
  let convertedOutput := outs.map fun o => convertSendEmailOutput (some o)
  if errs.isEmpty then
    (.ok { HandlerOutput.empty with emails := listToGoSlice convertedOutput } none, calls)
  else
    (.ok { HandlerOutput.empty with
        emails := listToGoSlice convertedOutput
        emailsErrors := some errs } none, calls)

/-- The bulk-send branch of LambdaHandler, main.go lines 285-305.  When
sendBulkEmail returns an error its output pointer is nil, and line 289
of the source ranges over output.BulkEmailEntryResults, a nil-pointer
dereference that crashes the handler. -/
def bulkSendPath (p : Provider) (input : SendBulkEmailInput) :
    HandlerResult × List ProviderCall :=
  match sendBulkEmail p input with
  | (.ok out, calls) =>
    (.ok { HandlerOutput.empty with
        bulkEmail := some {
          bulkEmailEntryResults := out.bulkEmailEntryResults.map convertBulkEntryResult
          resultMetadata := out.resultMetadata } } none, calls)
  | (.error _, calls) => (.nilDereference, calls)

/-- LambdaHandler, main.go lines 258-309, translated branch by branch. -/
def LambdaHandler (p : Provider) (event : HandlerInput) :
    HandlerResult × List ProviderCall :=
  match event.email with
  | some email =>
    (match sendEmail p email with
     | (.ok out, calls) =>
       (.ok { HandlerOutput.empty with
           email := some (convertSendEmailOutput (some out)) } none, calls)
     | (.error e, calls) =>
       (.ok { HandlerOutput.empty with
           email := some (convertSendEmailOutput none)
           emailError := some e } (some e), calls))
  | none =>
    if event.emails.length > 0 then
      let ((outs, errs), calls) := sendEmails p event.emails
      let convertedOutput := outs.map fun o => convertSendEmailOutput (some o)
      if errs.isEmpty then
        (.ok { HandlerOutput.empty with emails := listToGoSlice convertedOutput } none, calls)
      else
        (.ok { HandlerOutput.empty with
            emails := listToGoSlice convertedOutput
            emailsErrors := some errs } none, calls)
    else
      match event.bulkEmail with
      | some bulk =>
        (match sendBulkEmail p bulk with
         | (.ok out, calls) =>
           (.ok { HandlerOutput.empty with
               bulkEmail := some {
                 bulkEmailEntryResults := out.bulkEmailEntryResults.map convertBulkEntryResult
                 resultMetadata := out.resultMetadata } } none, calls)
         | (.error _, calls) => (.nilDereference, calls))
      | none => (.ok HandlerOutput.empty none, [])

/-! ## Wire JSON field names

The serialized field names on each side of the RPC boundary, keyed by
the shared logical field.  On the Go side these are the json struct
tags of types_bulk.go; on the TypeScript side the property names of
types_bulk.d.ts, which JSON.stringify emits verbatim. -/

/-- Go json tags of SendBulkEmailInput, types_bulk.go lines 66-123. -/
def goSendBulkEmailInputTags : List (String × String) :=
  [("BulkEmailEntries", "entries"),
   ("DefaultContent", "defaultContent"),
   ("ConfigurationSetName", "configSetName"),
   ("DefaultEmailTags", "defaultTags"),
   ("FeedbackForwardingEmailAddress", "feedbackForwardingEmailAddress"),
   ("FeedbackForwardingEmailAddressIdentityArn",
    "feedbackForwardingEmailAddressIdentityArn"),
   ("FromEmailAddress", "from"),
   ("FromEmailAddressIdentityArn", "fromarn"),
   ("ReplyToAddresses", "replyTo")]

/-- TypeScript property names of SendBulkEmailInput, types_bulk.d.ts
lines 103-152, keyed like the Go table. -/
def tsSendBulkEmailInputKeys : List (String × String) :=
  [("BulkEmailEntries", "entries"),
   ("DefaultContent", "defaultContent"),
   ("ConfigurationSetName", "configSetName"),
   ("DefaultEmailTags", "defaultTags"),
   ("FeedbackForwardingEmailAddress", "feedbackForwardingEmailAddress"),
   ("FeedbackForwardingEmailAddressIdentityArn",
    "feedbackForwardingEmailAddressIdentityArn"),
   ("FromEmailAddress", "from"),
   ("FromEmailAddressIdentityArn", "fromArn"),
   ("ReplyToAddresses", "replyTo")]

/-- Go json tag of the single field of BulkEmailContent, types_bulk.go
line 60. -/
def goBulkEmailContentTags : List (String × String) :=
  [("Template", "temaplte")]

/-- TypeScript property name of the single field of BulkEmailContent,
types_bulk.d.ts line 96. -/
def tsBulkEmailContentKeys : List (String × String) :=
  [("Template", "template")]

/-- Lookup of the serialized name of a logical field in one of the
wire-name tables. -/
def wireName (field : String) (table : List (String × String)) : Option String :=
  match table with
  | [] => none
  | kv :: rest => if kv.1 = field then some kv.2 else wireName field rest

/-! ## The invocation client, src/index.ts -/

/-- A decoded JSON result payload: either the Output envelope or the
transport error object with errorMessage and errorType fields. -/
inductive PayloadValue where
  | outputEnvelope (output : HandlerOutput)
  | errorObject (errorMessage : String) (errorType : String)
  deriving DecidableEq

/-- JavaScript property access payload.errorType on the decoded value:
present on the error object, undefined on an Output envelope. -/
def PayloadValue.errorTypeField : PayloadValue → Option String
  | .errorObject _ t => some t
  | .outputEnvelope _ => none

/-- JavaScript property access payload.errorMessage on the decoded
value. -/
def PayloadValue.errorMessageField : PayloadValue → Option String
  | .errorObject m _ => some m
  | .outputEnvelope _ => none

/-- The InvokeCommandOutput returned by the Lambda transport, with its
payload already decoded from bytes and JSON. -/
structure InvokeCommandOutput where
  statusCode : Option Nat
  functionError : Option String
  logResult : Option String
  payload : Option PayloadValue
  executedVersion : Option String
  metadata : Metadata
  deriving DecidableEq

/-- JavaScript truthiness of an optional string: false for undefined and
for the empty string. -/
def jsTruthy : Option String → Bool
  | none => false
  | some s => !s.isEmpty

/-- Rendering of an optional string inside a template literal: undefined
prints as the word undefined. -/
def jsShow : Option String → String
  | none => "undefined"
  | some s => s

/-- The LambdaSesError object, src/index.ts lines 143-175. -/
structure LambdaSesError where
  payload : PayloadValue
  message : String
  status : Option Nat
  error : Option String
  logs : Option String
  version : Option String
  metadata : Metadata
  deriving DecidableEq

/-- The LambdaSesError constructor, src/index.ts lines 155-174, applied
to a transport result whose payload decoded to pv; the message is the
errorType and errorMessage of the decoded payload joined by a colon.
The base64 log decoding is the external function b64. -/
def mkLambdaSesError (b64 : String → String) (pv : PayloadValue)
    (result : InvokeCommandOutput) : LambdaSesError :=
  { payload := pv
    message := jsShow pv.errorTypeField ++ ": " ++ jsShow pv.errorMessageField
    status := result.statusCode
    error := result.functionError
    logs := result.logResult.map b64
    version := result.executedVersion
    metadata := result.metadata }

/-- The InvocationResponse assembled by send, src/index.ts lines
229-238. -/
structure InvocationResponse where
  status : Option Nat
  error : Option String
  logs : Option String
  payload : Option PayloadValue
  version : Option String
  metadata : Metadata
  deriving DecidableEq

/-- Outcome of LambdaSes.send: a returned response, a raised
LambdaSesError, or the JSON SyntaxError the error constructor hits when
the transport supplied no payload to decode. -/
inductive SendResult where
  | response (r : InvocationResponse)
  | raised (e : LambdaSesError)
  | raisedSyntaxError
  deriving DecidableEq

/-- The post-transport logic of LambdaSes.send, src/index.ts lines
204-239: given the transport result, either raise on a reported
function error (when throwOnError is set) or assemble and return the
InvocationResponse. -/
def send (b64 : String → String) (result : InvokeCommandOutput)
    (throwOnError : Bool) : SendResult :=
  if jsTruthy result.functionError && throwOnError then
    match result.payload with
    | some pv => .raised (mkLambdaSesError b64 pv result)
    | none => .raisedSyntaxError
  else
    .response {
      status := result.statusCode
      error := result.functionError
      logs := result.logResult.map b64
      payload := result.payload
      version := result.executedVersion
      metadata := result.metadata }

/-! ## Spec-side measures -/

/-- Whether the single-send path fails on a given input under a given
provider (validation failure or provider error). -/
def sendFails (p : Provider) (input : SendEmailInput) : Bool :=
  match (sendEmailWithContext p input).1 with
  | .ok _ => false
  | .error _ => true

/-- The number of entries of a batch that fail under a given provider:
the K of the batch-path length claim. -/
def failCount (p : Provider) : List SendEmailInput → Nat
  | [] => 0
  | input :: rest => (if sendFails p input then 1 else 0) + failCount p rest

/-! ## Concrete fixtures for witnesses and counterexamples -/

/-- A provider whose operations always succeed. -/
def okProvider : Provider :=
  { sendEmailApi := fun _ => .ok { messageId := some "m-1", resultMetadata := "meta" }
    sendBulkEmailApi := fun _ =>
      .ok { bulkEmailEntryResults := [], resultMetadata := "meta" } }

/-- A destination with a single To recipient. -/
def validDestination : Destination :=
  { bccAddresses := [], ccAddresses := [], toAddresses := ["b@x.com"] }

/-- A nested-dialect content carrying an html body and a subject. -/
def validContent : EmailContent :=
  { body := none, subject := none, raw := none
    simple := some {
      body := some { html := some { data := some "<p>hi</p>", charset := some "UTF-8" }
                     text := none }
      subject := some { data := some "Hi", charset := none } }
    template := none }

/-- A single-send input that passes validation. -/
def validEmailInput : SendEmailInput :=
  { content := some validContent
    configurationSetName := none
    destination := some validDestination
    emailTags := []
    feedbackForwardingEmailAddress := none
    feedbackForwardingEmailAddressIdentityArn := none
    fromEmailAddress := some "a@x.com"
    fromEmailAddressIdentityArn := none
    listManagementOptions := none
    replyToAddresses := [] }

/-- A single-send input failing validation: its content is missing. -/
def missingContentEmailInput : SendEmailInput :=
  { validEmailInput with content := none }

/-- A bulk entry with no destination. -/
def badDestEntry : BulkEmailEntry :=
  { destination := none, replacementEmailContent := none, replacementTags := [] }

/-- A bulk input whose only entry lacks a destination. -/
def badDestBulkInput : SendBulkEmailInput :=
  { bulkEmailEntries := [badDestEntry]
    defaultContent := some {
      template := some {
        templateArn := none, templateData := some "data", templateName := some "welcome" } }
    configurationSetName := none
    defaultEmailTags := []
    feedbackForwardingEmailAddress := none
    feedbackForwardingEmailAddressIdentityArn := none
    fromEmailAddress := some "a@x.com"
    fromEmailAddressIdentityArn := none
    replyToAddresses := [] }

/-- A handler event that dispatches to the bulk path with the failing
bulk input. -/
def c1Event : HandlerInput :=
  { email := none, emails := [], bulkEmail := some badDestBulkInput }

/-- A valid bulk entry. -/
def c3Entry : BulkEmailEntry :=
  { destination := some validDestination, replacementEmailContent := none
    replacementTags := [] }

/-- A bulk input with distinct from and feedback-forwarding addresses. -/
def c3BulkInput : SendBulkEmailInput :=
  { bulkEmailEntries := [c3Entry]
    defaultContent := some {
      template := some {
        templateArn := none, templateData := none, templateName := some "welcome" } }
    configurationSetName := none
    defaultEmailTags := []
    feedbackForwardingEmailAddress := some "feedback@example.com"
    feedbackForwardingEmailAddressIdentityArn := none
    fromEmailAddress := some "sender@example.com"
    fromEmailAddressIdentityArn := none
    replyToAddresses := [] }

/-- A content populating both dialects at once: the flat body/subject
pair and a nested simple message. -/
def c6Content : EmailContent :=
  { body := some { html := some { data := some "<b>flat</b>", charset := some "UTF-8" }
                   text := some { data := some "flat-text", charset := none } }
    subject := some { data := some "flat-subject", charset := none }
    raw := none
    simple := some {
      body := some { html := none
                     text := some { data := some "nested-text", charset := none } }
      subject := some { data := some "nested-subject", charset := none } }
    template := none }

/-- A single-send input carrying c6Content. -/
def c6Input : SendEmailInput := { validEmailInput with content := some c6Content }

/-- A nested-dialect content whose body carries both html and text. -/
def c9Content : EmailContent :=
  { body := none
    subject := none
    raw := none
    simple := some {
      body := some { html := some { data := some "<i>h</i>", charset := none }
                     text := some { data := some "plain", charset := none } }
      subject := some { data := some "subject-9", charset := none } }
    template := none }

/-- A single-send input carrying c9Content. -/
def c9Input : SendEmailInput := { validEmailInput with content := some c9Content }

/-- A batch event with one succeeding and one failing entry. -/
def c2Event : HandlerInput :=
  { email := none, emails := [validEmailInput, missingContentEmailInput], bulkEmail := none }

/-- A single-send event whose email fails validation. -/
def c10Event : HandlerInput :=
  { email := some missingContentEmailInput, emails := [], bulkEmail := none }

/-- A transport result reporting a function error with a decoded error
payload. -/
def c8Result : InvokeCommandOutput :=
  { statusCode := some 200
    functionError := some "Unhandled"
    logResult := some "bG9n"
    payload := some (.errorObject "boom" "Error")
    executedVersion := some "1"
    metadata := "meta" }

/-! ## Helper lemmas -/

/-- The length of a Go slice built from a list is the length of the
list, whether or not the slice is nil. -/
theorem goSliceLength_listToGoSlice {α : Type} (l : List α) :
    goSliceLength (listToGoSlice l) = l.length := by
  cases l <;> simp [listToGoSlice, goSliceLength]

/-- The bulk entry loop errors with the missing-destination message as
soon as any entry lacks a destination. -/
theorem buildBulkEmailEntries_missing_destination (entries : List BulkEmailEntry)
    (entry : BulkEmailEntry) (hMem : entry ∈ entries)
    (hDest : entry.destination = none) :
    buildBulkEmailEntries entries = .error "Destination is required" := by
  induction entries with
  | nil => cases hMem
  | cons head rest ih =>
    cases hd : head.destination with
    | none => simp [buildBulkEmailEntries, buildBulkEmailEntry, hd]
    | some d =>
      have hMemRest : entry ∈ rest := by
        rcases List.mem_cons.mp hMem with hEq | h
        · subst hEq; simp [hd] at hDest
        · exact h
      simp [buildBulkEmailEntries, buildBulkEmailEntry, hd, ih hMemRest]

/-- Every batch entry lands in exactly one of the two result lists of
sendEmails, and the error list counts the failing entries. -/
theorem sendEmails_partition (p : Provider) (inputs : List SendEmailInput) :
    (sendEmails p inputs).1.1.length + (sendEmails p inputs).1.2.length = inputs.length ∧
    (sendEmails p inputs).1.2.length = failCount p inputs := by
  induction inputs with
  | nil => exact ⟨rfl, rfl⟩
  | cons input rest ih =>
    obtain ⟨ih1, ih2⟩ := ih
    unfold sendEmails failCount sendFails
    cases hr : sendEmailWithContext p input with
    | mk r calls =>
      cases hrest : sendEmails p rest with
      | mk pr restCalls =>
        cases pr with
        | mk outs errs =>
          rw [hrest] at ih1 ih2
          simp only at ih1 ih2
          cases r with
          | ok o => refine ⟨?_, ?_⟩ <;> simp <;> omega
          | error e => refine ⟨?_, ?_⟩ <;> simp <;> omega

/-! ## Claim theorems -/

/-- Claim C7: LambdaHandler dispatches to exactly one path, checked in
fixed order with first match winning: a populated email field takes the
single-send path; otherwise a non-empty emails list takes the batch
path; otherwise a populated bulkEmail takes the bulk path; otherwise
the handler performs no operation, returning the empty output, no
error, and issuing no provider call. -/
theorem lambdaHandler_dispatch_order (p : Provider) (event : HandlerInput) :
    LambdaHandler p event =
      match event.email with
      | some email => singleSendPath p email
      | none =>
        if event.emails.length > 0 then batchSendPath p event.emails
        else
          match event.bulkEmail with
          | some bulk => bulkSendPath p bulk
          | none => (.ok HandlerOutput.empty none, []) := by
  rcases event with ⟨email, emails, bulk⟩
  cases email <;> rfl

/-- Claim C1, evaluated at the failing input: on a bulk event whose
entry lacks a destination, sendBulkEmail returns an error together with
a nil output, and LambdaHandler crashes on the nil-pointer dereference
of main.go line 289 instead of returning an envelope carrying the error
in bulkEmailError. -/
theorem lambdaHandler_bulk_error_crashes :
    LambdaHandler okProvider c1Event = (.nilDereference, []) ∧
    sendBulkEmail okProvider badDestBulkInput = (.error "Destination is required", []) := by
  exact ⟨rfl, rfl⟩

/-- Claim C3, evaluated at the failing input: the provider bulk request
takes its from-email-address from the feedbackForwardingEmailAddress
field of the input (main.go line 217), not from its from field. -/
theorem bulk_from_address_miswired :
    ∃ req, buildSendBulkEmailRequest c3BulkInput = .ok req ∧
      req.fromEmailAddress = some "feedback@example.com" ∧
      c3BulkInput.fromEmailAddress = some "sender@example.com" ∧
      req.fromEmailAddress ≠ c3BulkInput.fromEmailAddress := by
  refine ⟨_, rfl, rfl, rfl, by decide⟩

/-- Claim C4, evaluated at the divergence: the Go json tags of the bulk
schema disagree with the TypeScript property names at two fields. The
template field of BulkEmailContent serializes as temaplte on the Go
side but template on the client side, and the sending-authorization ARN
of SendBulkEmailInput as fromarn versus fromArn; the entry-level names
agree. -/
theorem bulk_wire_names_disagree :
    wireName "Template" goBulkEmailContentTags = some "temaplte" ∧
    wireName "Template" tsBulkEmailContentKeys = some "template" ∧
    wireName "FromEmailAddressIdentityArn" goSendBulkEmailInputTags = some "fromarn" ∧
    wireName "FromEmailAddressIdentityArn" tsSendBulkEmailInputKeys = some "fromArn" ∧
    goBulkEmailContentTags ≠ tsBulkEmailContentKeys ∧
    goSendBulkEmailInputTags ≠ tsSendBulkEmailInputKeys := by
  refine ⟨by decide, by decide, by decide, by decide, by decide, by decide⟩

/-- Claim C5: a bulk input in which some entry lacks a destination fails
with the missing-destination error before any provider invocation: the
operation returns that error and the provider call log stays empty. -/
theorem sendBulkEmail_missing_destination_no_call (p : Provider)
    (input : SendBulkEmailInput) (entry : BulkEmailEntry)
    (hMem : entry ∈ input.bulkEmailEntries) (hDest : entry.destination = none) :
    sendBulkEmail p input = (.error "Destination is required", []) := by
  have h := buildBulkEmailEntries_missing_destination input.bulkEmailEntries entry hMem hDest
  simp [sendBulkEmail, buildSendBulkEmailRequest, h]

/-- Claim C5 witness: the theorem applied to a concrete bulk input whose
only entry lacks a destination. -/
theorem sendBulkEmail_missing_destination_no_call_witness :
    sendBulkEmail okProvider badDestBulkInput = (.error "Destination is required", []) :=
  sendBulkEmail_missing_destination_no_call okProvider badDestBulkInput badDestEntry
    (by decide) rfl

/-- Claim C6: in the single-send path, when the flat body and subject
are both present they form the simple message of the provider request,
taking precedence over the nested dialect; otherwise the nested simple
body and subject are used when present; and within body resolution the
html content is preferred, text being used only when html is absent. -/
theorem buildSendEmailRequest_dialect_precedence (input : SendEmailInput)
    (content : EmailContent) (dest : Destination)
    (hContent : input.content = some content) (hDest : input.destination = some dest) :
    ∃ req, buildSendEmailRequest input = .ok req ∧
      (∀ body subject, content.body = some body → content.subject = some subject →
        req.content.simple =
          some { body := some (resolveSimpleBody body)
                 subject := some (toSdkContent subject) }) ∧
      ((content.body = none ∨ content.subject = none) →
        ∀ m body subject, content.simple = some m → m.body = some body →
          m.subject = some subject →
          req.content.simple =
            some { body := some (resolveSimpleBody body)
                   subject := some (toSdkContent subject) }) ∧
      (∀ body h, body.html = some h →
        resolveSimpleBody body = { html := some (toSdkContent h), text := none }) ∧
      (∀ body t, body.html = none → body.text = some t →
        resolveSimpleBody body = { html := none, text := some (toSdkContent t) }) := by
  simp only [buildSendEmailRequest, hContent, hDest]
  refine ⟨_, rfl, ?_, ?_, ?_, ?_⟩
  · intro body subject hb hs
    simp [resolveSimpleMessage, hb, hs]
  · intro hNoFlat m body subject hm hmb hms
    rcases hNoFlat with hb | hs
    · simp [resolveSimpleMessage, hb, hm, hmb, hms]
    · cases hcb : content.body with
      | none => simp [resolveSimpleMessage, hcb, hm, hmb, hms]
      | some b2 => simp [resolveSimpleMessage, hcb, hs, hm, hmb, hms]
  · intro body h hh
    simp [resolveSimpleBody, hh]
  · intro body t hh ht
    simp [resolveSimpleBody, hh, ht]

/-- Claim C6 witness: the theorem applied to a concrete input populating
both dialects, whose flat body carries html and text. -/
theorem buildSendEmailRequest_dialect_precedence_witness :
    ∃ req, buildSendEmailRequest c6Input = .ok req ∧
      (∀ body subject, c6Content.body = some body → c6Content.subject = some subject →
        req.content.simple =
          some { body := some (resolveSimpleBody body)
                 subject := some (toSdkContent subject) }) ∧
      ((c6Content.body = none ∨ c6Content.subject = none) →
        ∀ m body subject, c6Content.simple = some m → m.body = some body →
          m.subject = some subject →
          req.content.simple =
            some { body := some (resolveSimpleBody body)
                   subject := some (toSdkContent subject) }) ∧
      (∀ body h, body.html = some h →
        resolveSimpleBody body = { html := some (toSdkContent h), text := none }) ∧
      (∀ body t, body.html = none → body.text = some t →
        resolveSimpleBody body = { html := none, text := some (toSdkContent t) }) :=
  buildSendEmailRequest_dialect_precedence c6Input c6Content validDestination rfl rfl

/-- Claim C9: the html-over-text preference also governs the nested
dialect: when the nested simple body carries both html and text, the
provider request keeps only the html content and the text is dropped. -/
theorem buildSendEmailRequest_nested_prefers_html (input : SendEmailInput)
    (content : EmailContent) (dest : Destination) (m : Message) (body : Body)
    (subject h t : Content)
    (hContent : input.content = some content) (hDest : input.destination = some dest)
    (hNoFlat : content.body = none ∨ content.subject = none)
    (hSimple : content.simple = some m) (hBody : m.body = some body)
    (hSubject : m.subject = some subject)
    (hHtml : body.html = some h) (hText : body.text = some t) :
    ∃ req, buildSendEmailRequest input = .ok req ∧
      req.content.simple =
        some { body := some { html := some (toSdkContent h), text := none }
               subject := some (toSdkContent subject) } := by
  simp only [buildSendEmailRequest, hContent, hDest]
  refine ⟨_, rfl, ?_⟩
  rcases hNoFlat with hb | hs
  · simp [resolveSimpleMessage, resolveSimpleBody, hb, hSimple, hBody, hSubject, hHtml]
  · cases hcb : content.body with
    | none => simp [resolveSimpleMessage, resolveSimpleBody, hcb, hSimple, hBody, hSubject, hHtml]
    | some b2 =>
      simp [resolveSimpleMessage, resolveSimpleBody, hcb, hs, hSimple, hBody, hSubject, hHtml]

/-- Claim C9 witness: the theorem applied to a concrete nested-dialect
input whose body carries both html and text. -/
theorem buildSendEmailRequest_nested_prefers_html_witness :
    ∃ req, buildSendEmailRequest c9Input = .ok req ∧
      req.content.simple =
        some { body := some { html := some (toSdkContent { data := some "<i>h</i>", charset := none })
                              text := none }
               subject := some (toSdkContent { data := some "subject-9", charset := none }) } :=
  buildSendEmailRequest_nested_prefers_html c9Input c9Content validDestination
    { body := some { html := some { data := some "<i>h</i>", charset := none }
                     text := some { data := some "plain", charset := none } }
      subject := some { data := some "subject-9", charset := none } }
    { html := some { data := some "<i>h</i>", charset := none }
      text := some { data := some "plain", charset := none } }
    { data := some "subject-9", charset := none }
    { data := some "<i>h</i>", charset := none }
    { data := some "plain", charset := none }
    rfl rfl (Or.inl rfl) rfl rfl rfl rfl rfl

/-- Claim C2: with the batch path dispatched (no single email and a
non-empty emails list of N entries of which K fail), the handler
returns normally with no top-level error; the emails field holds the
N minus K successes, the errors field holds the K failures and is
omitted (a nil slice) exactly when K is zero; the two lists account for
every entry, so no per-entry failure aborts the remaining ones. -/
theorem lambdaHandler_batch_lengths (p : Provider) (event : HandlerInput)
    (hEmail : event.email = none) (hNonEmpty : 0 < event.emails.length) :
    ∃ output calls, LambdaHandler p event = (.ok output none, calls) ∧
      goSliceLength output.emails = event.emails.length - failCount p event.emails ∧
      goSliceLength output.emailsErrors = failCount p event.emails ∧
      (output.emailsErrors = none ↔ failCount p event.emails = 0) := by
  obtain ⟨hsum, herr⟩ := sendEmails_partition p event.emails
  unfold LambdaHandler
  rw [hEmail, if_pos hNonEmpty]
  cases hse : sendEmails p event.emails with
  | mk pr calls =>
    cases pr with
    | mk outs errs =>
      rw [hse] at hsum herr
      simp only at hsum herr
      cases errs with
      | nil =>
        refine ⟨_, calls, rfl, ?_, ?_, ?_⟩
        · simp only [goSliceLength_listToGoSlice, List.length_map]
          omega
        · simpa [goSliceLength] using herr
        · simp at herr
          simp [HandlerOutput.empty, herr.symm]
      | cons e rest =>
        refine ⟨_, calls, rfl, ?_, ?_, ?_⟩
        · simp only [goSliceLength_listToGoSlice, List.length_map]
          omega
        · simpa [goSliceLength] using herr
        · simp at herr ⊢
          omega

/-- Claim C2 witness: the theorem applied to a batch of two entries of
which exactly one fails validation. -/
theorem lambdaHandler_batch_lengths_witness :
    ∃ output calls, LambdaHandler okProvider c2Event = (.ok output none, calls) ∧
      goSliceLength output.emails =
        c2Event.emails.length - failCount okProvider c2Event.emails ∧
      goSliceLength output.emailsErrors = failCount okProvider c2Event.emails ∧
      (output.emailsErrors = none ↔ failCount okProvider c2Event.emails = 0) :=
  lambdaHandler_batch_lengths okProvider c2Event rfl (by decide)

/-- Claim C10: on the single-send path the output email field is always
a populated object, even on failure: when the send errors the handler
still stores the empty SendEmailOutput in the email field next to the
error, so failure is only visible through the error field. -/
theorem lambdaHandler_single_email_always_populated (p : Provider)
    (event : HandlerInput) (email : SendEmailInput)
    (hEmail : event.email = some email) :
    ∃ output errOpt calls, LambdaHandler p event = (.ok output errOpt, calls) ∧
      output.email.isSome = true ∧
      (∀ e, errOpt = some e →
        output.email = some { messageId := none, resultMetadata := "" } ∧
        output.emailError = some e) := by
  unfold LambdaHandler
  simp only [hEmail]
  cases hr : sendEmail p email with
  | mk r calls =>
    cases r with
    | ok o =>
      refine ⟨_, none, calls, rfl, ?_, ?_⟩
      · rfl
      · intro e he
        cases he
    | error e =>
      refine ⟨_, some e, calls, rfl, ?_, ?_⟩
      · rfl
      · intro e2 he2
        cases he2
        exact ⟨rfl, rfl⟩

/-- Claim C10 witness: the theorem applied to a single-send event whose
email fails validation, so the error is set and the email field still
carries the empty output object. -/
theorem lambdaHandler_single_email_always_populated_witness :
    ∃ output errOpt calls, LambdaHandler okProvider c10Event = (.ok output errOpt, calls) ∧
      output.email.isSome = true ∧
      (∀ e, errOpt = some e →
        output.email = some { messageId := none, resultMetadata := "" } ∧
        output.emailError = some e) :=
  lambdaHandler_single_email_always_populated okProvider c10Event
    missingContentEmailInput rfl

/-- Claim C8: when the transport reports a function-execution error and
throwOnError is true, send raises a LambdaSesError whose message is the
errorType and errorMessage of the decoded payload joined by a colon and
a space; when throwOnError is false, send never raises for a function
error and returns the InvocationResponse with the transport error in
its error field. -/
theorem send_throwOnError_contract (b64 : String → String)
    (result : InvokeCommandOutput) (em et : String)
    (hfe : jsTruthy result.functionError = true)
    (hp : result.payload = some (.errorObject em et)) :
    (send b64 result true = .raised (mkLambdaSesError b64 (.errorObject em et) result) ∧
      (mkLambdaSesError b64 (.errorObject em et) result).message = et ++ ": " ++ em) ∧
    (∀ r : InvokeCommandOutput, send b64 r false =
        .response { status := r.statusCode, error := r.functionError
                    logs := r.logResult.map b64, payload := r.payload
                    version := r.executedVersion, metadata := r.metadata }) := by
  refine ⟨⟨?_, ?_⟩, ?_⟩
  · simp [send, hfe, hp]
  · simp [mkLambdaSesError, PayloadValue.errorTypeField, PayloadValue.errorMessageField, jsShow]
  · intro r
    simp [send]

/-- Claim C8 witness: the theorem applied to a concrete transport result
carrying a function error and a decoded error payload. -/
theorem send_throwOnError_contract_witness :
    (send (fun s => s) c8Result true =
        .raised (mkLambdaSesError (fun s => s) (.errorObject "boom" "Error") c8Result) ∧
      (mkLambdaSesError (fun s => s) (.errorObject "boom" "Error") c8Result).message =
        "Error" ++ ": " ++ "boom") ∧
    (∀ r : InvokeCommandOutput, send (fun s => s) r false =
        .response { status := r.statusCode, error := r.functionError
                    logs := r.logResult.map (fun s => s), payload := r.payload
                    version := r.executedVersion, metadata := r.metadata }) :=
  send_throwOnError_contract (fun s => s) c8Result "boom" "Error" (by decide) rfl

end LambdaSes
